import Mathlib

/-
Verification of the OpenRGBClient effect-execution engine.

Shallow embedding of:
  - src/src/main.py      : CombinedLinearZone, OpenRGBClient (the effect
                           lifecycle controller: _stop_current_effect,
                           setEffect, _bundle_effects)
  - src/src/pluginLib.py : PluginManager (_discover_plugins,
                           _install_dependencies, _load_plugin, _load_all),
                           FunctionMetadata, Plugin, LoadStatus
  - src/plugins/core-effects/core-effects.py : rainbowCycle, rainbow

External collaborators (the openrgb network client, threading, the
filesystem, pip, importlib) are modelled as explicit parameters: the
outcome of each external call is an input to the embedded function.
Machine-level details that no claim depends on (actual RGB conversion
inside RGBColor.fromHSV) are modelled as free constructors.
-/

/-! ## Dictionary model

Python `dict` is modelled as an association list with unique keys kept in
insertion order.  `upsert` is `d[k] = v` (replace in place if the key is
present, append otherwise); `dictGet` is `d[k]` / `d.get(k)`; `dictKeys`
is `d.keys()`. -/

def upsert {α : Type} (k : String) (v : α) : List (String × α) → List (String × α)
  | [] => [(k, v)]
  | p :: rest => if p.1 = k then (k, v) :: rest else p :: upsert k v rest

def dictGet {α : Type} : List (String × α) → String → Option α
  | [], _ => none
  | p :: rest, k => if p.1 = k then some p.2 else dictGet rest k

def dictKeys {α : Type} (l : List (String × α)) : List String :=
  l.map Prod.fst

/-! ## Colors and the plugin effect functions

`RGBColor` (from `openrgb.utils`) is opaque to every claim: the code only
constructs colors via `RGBColor(r, g, b)` and `RGBColor.fromHSV(h, s, v)`
and moves them around, so both constructors are modelled as free
constructors. -/

inductive RGBColor where
  | mk (r g b : Nat)
  | fromHSV (h s v : Nat)
deriving DecidableEq

/-- Python list element assignment `xs[i] = c` for a non-negative index:
fails with IndexError when `i` is out of range, otherwise replaces the
element. -/
def pyListSet : List RGBColor → Nat → RGBColor → Option (List RGBColor)
  | [], _, _ => none
  | _ :: xs, 0, c => some (c :: xs)
  | x :: xs, n + 1, c => (pyListSet xs n c).map (x :: ·)

inductive PyErr where
  | indexError
  | valueError
deriving DecidableEq

/-- The index/hue pairs produced by `enumerate(range(0, 360, step))` for
`step > 0`: the pair `(i, i * step)` for each `i` below
`ceil(360 / step) = (360 + step - 1) / step`. -/
def rainbowPairs (step : Nat) : List (Nat × Nat) :=
  (List.range ((360 + step - 1) / step)).map (fun i => (i, i * step))

/-- The assignment loop of `rainbow`:
`for i, hue in enumerate(range(0, 360, step)): zone.colors[i] = RGBColor.fromHSV(hue, 100, 100)`.
An out-of-range index raises IndexError and aborts the run. -/
def rainbowLoop : List RGBColor → List (Nat × Nat) → Except PyErr (List RGBColor)
  | cs, [] => .ok cs
  | cs, (i, hue) :: rest =>
    match pyListSet cs i (RGBColor.fromHSV hue 100 100) with
    | some cs' => rainbowLoop cs' rest
    | none => .error .indexError

/-- `rainbow(zone, step, shutdown_event)` from core-effects.py (the
`shutdown_event` argument is ignored by the source).  `range(0, 360, 0)`
raises `ValueError: range() arg 3 must not be zero`.  On success the
returned Bool is `true`, recording that `zone.show()` ran; when the loop
raises, `show()` is never reached. -/
def rainbow (colors : List RGBColor) (step : Nat) : Except PyErr (List RGBColor × Bool) :=
  if step = 0 then .error .valueError
  else (rainbowLoop colors (rainbowPairs step)).map (fun cs => (cs, true))

/-- One pass of the `while not shutdown_event.is_set()` body of
`rainbowCycle(zone, step, shutdown_event)`:
`for i in range(len(zone.colors)): zone.colors[i] = RGBColor.fromHSV((i * step + offset) % 360, 100, 100)`
followed by `zone.show()`.  The loop then advances `offset` by 5 and
performs the cooperative wait `shutdown_event.wait(0.05)`. -/
def rainbowCycleBody (colors : List RGBColor) (step offset : Nat) : List RGBColor :=
  (List.range colors.length).map
    (fun i => RGBColor.fromHSV ((i * step + offset) % 360) 100 100)

/-! ## CombinedLinearZone (main.py lines 11-35) -/

/-- A physical sub-zone as seen by `CombinedLinearZone`: `leds` is
`len(z.leds)` and `colors` is the current `z.colors` buffer (empty models
a missing/empty attribute, which Python's truthiness test treats alike). -/
structure SubZone where
  leds : Nat
  colors : List RGBColor
deriving DecidableEq

/-- `CombinedLinearZone.__init__`: build one continuous color buffer,
taking each zone's current colors when present/non-empty and a black
fallback of `len(z.leds)` otherwise. -/
def combinedInit (zones : List SubZone) : List RGBColor :=
  zones.foldl
    (fun buf z =>
      buf ++ (if z.colors.isEmpty then List.replicate z.leds (RGBColor.mk 0 0 0) else z.colors))
    []

/-- The dispatch loop of `CombinedLinearZone.show()`: starting from
`index = 0`, slice `colors[index : index + len(z.leds)]` for each zone,
pass it to `z.set_colors`, and advance `index`.  The result is the list
of segments dispatched, in zone order. -/
def combinedShowAux (zones : List SubZone) (colors : List RGBColor) (index : Nat) :
    List (List RGBColor) :=
  match zones with
  | [] => []
  | z :: rest => ((colors.drop index).take z.leds) :: combinedShowAux rest colors (index + z.leds)

/-- `CombinedLinearZone.show()` on a combined zone whose buffer currently
holds `colors`. -/
def combinedShow (zones : List SubZone) (colors : List RGBColor) : List (List RGBColor) :=
  combinedShowAux zones colors 0

/-! ## Plugin manager (pluginLib.py)

Filesystem, pip and importlib outcomes are inputs: a `PluginDir` is one
immediate subdirectory of the plugins root holding a `manifest.json`,
together with the outcome of parsing that file (`json.load`), of the
`(plugin_dir / main).exists()` test, and of executing the module
(`spec.loader.exec_module`), whose successful result is the list of
attribute names the module exports as callables.  pip is the function
`pipOk` from the requirement string `package_name + version_spec` to
whether `pip install` succeeds. -/

inductive LoadStatus where
  | success
  | failed
  | not_loaded
deriving DecidableEq

/-- `FunctionMetadata` from pluginLib.py.  `func` (the callable fetched by
`getattr(module, func_name)`) is identified by its attribute name;
`plugin_module` is the module it came from, represented by the module's
export list. -/
structure FunctionMetadata where
  func : String
  name : String
  looped : Bool
  plugin_module : List String
deriving DecidableEq

/-- One entry of the manifest's `functions` list: `func_spec.get('name')`
and `func_spec.get('looped', False)` (the default is already applied). -/
structure FuncSpec where
  name : Option String
  looped : Bool
deriving DecidableEq

/-- The parsed content of a `manifest.json`, each field as read by
`manifest.get(...)` in pluginLib.py.  `dependencies` maps package name to
version-constraint string, in iteration order. -/
structure Manifest where
  name : Option String
  version : Option String
  description : Option String
  author : Option String
  main : Option String
  functions : List FuncSpec
  dependencies : List (String × String)
deriving DecidableEq

/-- One discovered plugin directory plus the environment's responses for
it (see the section comment). -/
structure PluginDir where
  path : String
  parse : Except String Manifest
  mainExists : Bool
  moduleExports : Except String (List String)

/-- `Plugin` from pluginLib.py (named `LoadedPlugin` here to avoid clashing
with the spec's use of the word).  Created only on the success path of
`_load_plugin`, hence `status` is always `SUCCESS` and `error` is `None`
there. -/
structure LoadedPlugin where
  name : Option String
  version : String
  description : String
  author : String
  functions : List (String × FunctionMetadata)
  manifest : Manifest
  module : List String
  status : LoadStatus
  error : Option String
deriving DecidableEq

/-- One step of `_discover_plugins`: `json.load` the manifest; on success
record `name -> manifest_path` when a name is present (a nameless manifest
is silently skipped); on a parse exception record it in `_load_errors`
keyed by `str(manifest_path)`.  The accumulator is the pair
`(_manifests, _load_errors)`. -/
def discoverStep (acc : List (String × PluginDir) × List (String × String)) (d : PluginDir) :
    List (String × PluginDir) × List (String × String) :=
  match d.parse with
  | .ok m =>
    match m.name with
    | some n => (upsert n d acc.1, acc.2)
    | none => acc
  | .error e => (acc.1, upsert d.path e acc.2)

/-- `_discover_plugins`: iterate over `sorted(plugins_dir.glob('*/manifest.json'))`
(the input list is the directories in that sorted order; a missing plugins
root is the empty list).  Returns `(_manifests, _load_errors)`. -/
def discoverPlugins (dirs : List PluginDir) :
    List (String × PluginDir) × List (String × String) :=
  dirs.foldl discoverStep ([], [])

/-- `_install_dependencies`: install each declared dependency sequentially
with `pip install package_name + version_spec`; the first
`CalledProcessError` is re-raised as
`Exception("Failed to install ...")`, aborting the remaining installs. -/
def installDependencies (pipOk : String → Bool) : List (String × String) → Except String Unit
  | [] => .ok ()
  | (pkg, ver) :: rest =>
    if pipOk (pkg ++ ver) then installDependencies pipOk rest
    else .error ("Failed to install " ++ pkg ++ ver)

/-- The function-binding loop of `_load_plugin`: for every declared
function spec, `hasattr(module, func_name)` decides whether to bind a
`FunctionMetadata` into the `functions` dict or to print a warning and
omit the function.  `hasattr(module, None)` (a spec without a name)
raises TypeError, which the enclosing `except` turns into a plugin load
failure.  Returns the bound dict and the list of warned-about names. -/
def bindFunctions (exports : List String) :
    List FuncSpec → List (String × FunctionMetadata) → List String →
    Except String (List (String × FunctionMetadata) × List String)
  | [], funcs, warns => .ok (funcs, warns)
  | f :: rest, funcs, warns =>
    match f.name with
    | none => .error "attribute name must be string"
    | some n =>
      if n ∈ exports then
        bindFunctions exports rest
          (upsert n { func := n, name := n, looped := f.looped, plugin_module := exports } funcs)
          warns
      else
        bindFunctions exports rest funcs (warns ++ [n])

/-- `_load_plugin` for one discovered plugin: re-read and parse the
manifest, install dependencies when the declared dict is non-empty, check
`main` is declared and the entry file exists, execute the module, then
bind the declared functions.  Any exception on the way is caught by
`_load_plugin`'s `except` and returned as that plugin's load error.  On
success returns the `Plugin` object and the warning list. -/
def loadPlugin (pipOk : String → Bool) (d : PluginDir) :
    Except String (LoadedPlugin × List String) :=
  match d.parse with
  | .error e => .error e
  | .ok m =>
    match (if m.dependencies.isEmpty then .ok () else installDependencies pipOk m.dependencies) with
    | .error e => .error e
    | .ok () =>
      match m.main with
      | none => .error "'main' not specified in manifest"
      | some _ =>
        if d.mainExists then
          match d.moduleExports with
          | .error e => .error e
          | .ok exports =>
            match bindFunctions exports m.functions [] [] with
            | .error e => .error e
            | .ok (funcs, warns) =>
              .ok
                ({ name := m.name
                   version := m.version.getD "unknown"
                   description := m.description.getD ""
                   author := m.author.getD "unknown"
                   functions := funcs
                   manifest := m
                   module := exports
                   status := LoadStatus.success
                   error := none }, warns)
        else .error ("Main file not found: " ++ d.path)

/-- The loop body of `_load_all` over one `(plugin_name, manifest_path)`
entry of `_manifests`: a successful load is stored in `_loaded`, a failure
in `_load_errors` keyed by the plugin name.  The accumulator is
`(_loaded, _load_errors)`. -/
def loadStep (pipOk : String → Bool)
    (acc : List (String × LoadedPlugin) × List (String × String))
    (entry : String × PluginDir) :
    List (String × LoadedPlugin) × List (String × String) :=
  match loadPlugin pipOk entry.2 with
  | .ok (p, _) => (upsert entry.1 p acc.1, acc.2)
  | .error e => (acc.1, upsert entry.1 e acc.2)

/-- `_load_all`: load every discovered plugin in discovery order, starting
from an empty `_loaded` and the `_load_errors` accumulated during
discovery. -/
def loadAll (pipOk : String → Bool) (manifests : List (String × PluginDir))
    (errs0 : List (String × String)) :
    List (String × LoadedPlugin) × List (String × String) :=
  manifests.foldl (loadStep pipOk) ([], errs0)

/-- The state a `PluginManager.__init__` run ends in: `_manifests`,
`_loaded` and `_load_errors` after `_discover_plugins()` then
`_load_all()`. -/
structure PluginManagerState where
  manifests : List (String × PluginDir)
  loaded : List (String × LoadedPlugin)
  loadErrors : List (String × String)
deriving Inhabited

/-- `PluginManager.__init__` over a plugins root whose sorted subdirectory
scan yields `dirs`. -/
def pluginManagerInit (pipOk : String → Bool) (dirs : List PluginDir) : PluginManagerState :=
  let disc := discoverPlugins dirs
  let la := loadAll pipOk disc.1 disc.2
  { manifests := disc.1, loaded := la.1, loadErrors := la.2 }

/-! ## Effect lifecycle controller (main.py, class OpenRGBClient)

Threads and `threading.Event` are modelled observationally.  A worker
thread is a numeric id; `alive` is the set (list) of worker ids whose
threads are currently alive, `effectThread` is the `self.effect_thread`
field (which can hold a thread that has already exited).  The single
`threading.Event()` created in `__init__` is `signalId = 0` together with
its internal flag `signalSet`; `clear()` resets the flag of the *same*
event object, it creates no new one.  `step` is `self.step`.  Each
controller operation additionally returns the list of observable events
it performs, in program order. -/

structure CtrlState where
  hasDevice : Bool
  effectThread : Option Nat
  alive : List Nat
  signalSet : Bool
  signalId : Nat
  nextThreadId : Nat
  step : Option Nat
deriving DecidableEq

/-- Observable controller events: creating a `threading.Event` object,
`shutdown_event.set()`, `effect_thread.join()` returning,
`shutdown_event.clear()`, `Thread(...).start()` of worker `t` bound to the
signal object `sid`, and a synchronous (non-looped) effect run. -/
inductive Ev where
  | sigCreate (sid : Nat)
  | sigSet (sid : Nat)
  | joinW (t : Nat)
  | sigClear (sid : Nat)
  | spawn (t sid : Nat)
  | runSync (k : String)
deriving DecidableEq

/-- The controller fields right after `OpenRGBClient.__init__`:
`self.effect_thread = None`, `self.shutdown_event = threading.Event()`
(unset), no device selected yet. -/
def initCtrl : CtrlState :=
  { hasDevice := false, effectThread := none, alive := [], signalSet := false,
    signalId := 0, nextThreadId := 0, step := none }

/-- The events `__init__` performs: it creates the one and only
cancellation-signal object. -/
def clientInitTrace : List Ev := [.sigCreate 0]

/-- `selectDeviceByName`: on a hit, `self.selected_device` is set; a miss
(IndexError) only prints. -/
def selectDeviceByName (found : Bool) (s : CtrlState) : CtrlState :=
  if found then { s with hasDevice := true } else s

/-- `_stop_current_effect`: if `self.effect_thread` holds a thread that
`is_alive()`, set the shutdown event, join the worker (the worker observes
the set signal at its next loop boundary and exits; join returns), and
clear the field.  Otherwise do nothing at all. -/
def stopCurrentEffect (s : CtrlState) : CtrlState × List Ev :=
  match s.effectThread with
  | some t =>
    if t ∈ s.alive then
      ({ s with signalSet := true, alive := s.alive.erase t, effectThread := none },
        [.sigSet s.signalId, .joinW t])
    else (s, [])
  | none => (s, [])

/-- The error `setEffect` raises on a key that is not in the bundled
effects dict: `except KeyError: raise ValueError("Unknown effect: ...")`. -/
inductive RunErr where
  | unknownEffect (k : String)
deriving DecidableEq

/-- `OpenRGBClient.setEffect(effect_name)`, main.py lines 132-183.
`zoneLen` is the outcome of the zone-selection block (lines 134-159):
`none` when the device has no linear zones and no LEDs at all (the early
`return`), otherwise the length of the chosen real / virtual / combined
zone's color buffer.  `self.step` is then set to that length (line 162)
*before* the effect lookup, so it changes even when the lookup fails.
For a looped effect: implicit stop, `shutdown_event.clear()`, then spawn a
worker bound to `(zone, step, shutdown_event)`.  For a single-shot effect:
run it synchronously on the caller's context, with no stop and no spawn.
Without a selected device the call only prints. -/
def setEffect (effects : List (String × FunctionMetadata)) (zoneLen : Option Nat)
    (k : String) (s : CtrlState) : CtrlState × List Ev × Option RunErr :=
  if s.hasDevice then
    match zoneLen with
    | none => (s, [], none)
    | some len =>
      let s0 := { s with step := some len }
      match dictGet effects k with
      | none => (s0, [], some (.unknownEffect k))
      | some fm =>
        if fm.looped then
          let r := stopCurrentEffect s0
          ({ r.1 with
              signalSet := false,
              effectThread := some r.1.nextThreadId,
              alive := r.1.alive ++ [r.1.nextThreadId],
              nextThreadId := r.1.nextThreadId + 1 },
            r.2 ++ [.sigClear r.1.signalId, .spawn r.1.nextThreadId r.1.signalId], none)
        else (s0, [.runSync k], none)
  else (s, [], none)

/-- `_bundle_effects`: flatten every loaded plugin's function dict into
one effects dict keyed `plugin_name ++ "." ++ func_name`. -/
def bundleEffects (plugins : List (String × LoadedPlugin)) :
    List (String × FunctionMetadata) :=
  plugins.foldl
    (fun effects pr =>
      pr.2.functions.foldl
        (fun effects fr => upsert (pr.1 ++ "." ++ fr.1) fr.2 effects)
        effects)
    []

/-- The commands the foreground context can issue to the controller, plus
the environment step `exitW t` in which a live worker exits on its own
(its loop observed a set signal, or the plugin code raised). -/
inductive Op where
  | select (found : Bool)
  | run (zoneLen : Option Nat) (k : String)
  | stop
  | exitW (t : Nat)

def applyOp (effects : List (String × FunctionMetadata)) (s : CtrlState) : Op → CtrlState
  | .select found => selectDeviceByName found s
  | .run z k => (setEffect effects z k s).1
  | .stop => (stopCurrentEffect s).1
  | .exitW t => { s with alive := s.alive.erase t }

/-- A whole client session: `__init__` followed by any sequence of
commands and environment steps. -/
def runOps (effects : List (String × FunctionMetadata)) (ops : List Op) : CtrlState :=
  ops.foldl (applyOp effects) initCtrl

/-- The controller invariant: live workers are pairwise distinct and every
live worker is the one `self.effect_thread` currently points to. -/
def CtrlInv (s : CtrlState) : Prop :=
  s.alive.Nodup ∧ ∀ w ∈ s.alive, s.effectThread = some w

/-- The controller is `Idle` exactly when `self.effect_thread` is `None`
or holds a thread that is no longer alive — precisely the condition under
which `_stop_current_effect`'s guard is false. -/
def isIdle (s : CtrlState) : Bool :=
  match s.effectThread with
  | none => true
  | some t => decide (t ∉ s.alive)

/-- `'.' ∉ s`: plugin and function names that do not contain the key
separator used by `_bundle_effects`. -/
def dotFree (s : String) : Prop := '.' ∉ s.data

instance (s : String) : Decidable (dotFree s) := by
  unfold dotFree; infer_instance

/-- A concrete loaded-plugin catalog with the shipped core-effects plugin
exposing only its looped `rainbowCycle`, used by concrete instances
below. -/
def demoCatalog : List (String × LoadedPlugin) :=
  [("core-effects",
      { name := some "core-effects", version := "1.0.0", description := "", author := "unknown",
        functions :=
          [("rainbowCycle",
              { func := "rainbowCycle", name := "rainbowCycle", looped := true,
                plugin_module := ["rainbowCycle", "alternate", "rainbow"] })],
        manifest :=
          { name := some "core-effects", version := some "1.0.0", description := none,
            author := none, main := some "core-effects.py",
            functions := [{ name := some "rainbowCycle", looped := true }],
            dependencies := [] },
        module := ["rainbowCycle", "alternate", "rainbow"],
        status := LoadStatus.success, error := none })]

/-- The manifest of the shipped core-effects plugin (declaring only
`rainbowCycle`), used as a concrete valid manifest below. -/
def demoManifest : Manifest :=
  { name := some "core-effects", version := some "1.0.0", description := none,
    author := none, main := some "core-effects.py",
    functions := [{ name := some "rainbowCycle", looped := true }],
    dependencies := [] }

/-- A concrete plugin directory whose manifest parses and whose module
loads, exporting the three core effects. -/
def validDir : PluginDir :=
  { path := "plugins/core-effects/manifest.json", parse := .ok demoManifest,
    mainExists := true, moduleExports := .ok ["rainbowCycle", "alternate", "rainbow"] }

/-- A concrete plugin directory whose manifest declares a pip dependency,
used to exercise dependency-install failure. -/
def needyDir : PluginDir :=
  { path := "plugins/needy/manifest.json",
    parse := .ok
      { name := some "needy", version := some "0.1", description := none, author := none,
        main := some "needy.py", functions := [],
        dependencies := [("numpy", ">=2.0")] },
    mainExists := true, moduleExports := .ok [] }

/-- A concrete plugin directory whose manifest declares one function the
module exports and one it does not. -/
def gappyDir : PluginDir :=
  { path := "plugins/gappy/manifest.json",
    parse := .ok
      { name := some "gappy", version := none, description := none, author := none,
        main := some "gappy.py",
        functions :=
          [{ name := some "rainbowCycle", looped := true },
            { name := some "sparkle", looped := false }],
        dependencies := [] },
    mainExists := true, moduleExports := .ok ["rainbowCycle"] }

/-- A concrete plugin directory whose manifest.json fails `json.load`. -/
def brokenDir : PluginDir :=
  { path := "plugins/broken/manifest.json",
    parse := .error "Expecting value: line 1 column 1",
    mainExists := false, moduleExports := .error "not loaded" }

/-- A concrete effects dict matching the shipped core-effects plugin
(manifest: rainbowCycle and alternate looped, rainbow single-shot), used
by concrete runs below. -/
def demoEffects : List (String × FunctionMetadata) :=
  [("core-effects.rainbowCycle",
      { func := "rainbowCycle", name := "rainbowCycle", looped := true,
        plugin_module := ["rainbowCycle", "alternate", "rainbow"] }),
    ("core-effects.alternate",
      { func := "alternate", name := "alternate", looped := true,
        plugin_module := ["rainbowCycle", "alternate", "rainbow"] }),
    ("core-effects.rainbow",
      { func := "rainbow", name := "rainbow", looped := false,
        plugin_module := ["rainbowCycle", "alternate", "rainbow"] })]

instance {ε α : Type} [DecidableEq ε] [DecidableEq α] : DecidableEq (Except ε α) :=
  fun a b =>
    match a, b with
    | .ok x, .ok y => if h : x = y then .isTrue (by rw [h]) else .isFalse (by simp [h])
    | .error x, .error y => if h : x = y then .isTrue (by rw [h]) else .isFalse (by simp [h])
    | .ok _, .error _ => .isFalse (by simp)
    | .error _, .ok _ => .isFalse (by simp)

/-! ## Dictionary lemmas -/

theorem dictGet_upsert_self {α : Type} (k : String) (v : α) (l : List (String × α)) :
    dictGet (upsert k v l) k = some v := by
  induction l with
  | nil => simp [upsert, dictGet]
  | cons p rest ih =>
    by_cases h : p.1 = k
    · simp [upsert, dictGet, h]
    · simp [upsert, dictGet, h, ih]

theorem dictGet_upsert_ne {α : Type} {k k' : String} (v : α) (l : List (String × α))
    (h : k' ≠ k) : dictGet (upsert k' v l) k = dictGet l k := by
  induction l with
  | nil => simp [upsert, dictGet, h]
  | cons p rest ih =>
    by_cases hp : p.1 = k'
    · simp [upsert, dictGet, hp, h]
    · simp only [upsert, hp, if_false, dictGet]
      by_cases hk : p.1 = k
      · simp [dictGet, hk]
      · simp [dictGet, hk, ih]

theorem dictKeys_cons {α : Type} (p : String × α) (rest : List (String × α)) :
    dictKeys (p :: rest) = p.1 :: dictKeys rest := rfl

theorem mem_dictKeys_upsert {α : Type} {x k : String} (v : α) (l : List (String × α)) :
    x ∈ dictKeys (upsert k v l) ↔ x = k ∨ x ∈ dictKeys l := by
  induction l with
  | nil => simp [upsert, dictKeys]
  | cons p rest ih =>
    by_cases h : p.1 = k
    · have hu : upsert k v (p :: rest) = (k, v) :: rest := by
        rw [upsert, if_pos h]
      rw [hu, dictKeys_cons, dictKeys_cons, List.mem_cons, List.mem_cons, h]
      tauto
    · have hu : upsert k v (p :: rest) = p :: upsert k v rest := by
        rw [upsert, if_neg h]
      rw [hu, dictKeys_cons, dictKeys_cons, List.mem_cons, List.mem_cons, ih]
      tauto

theorem dictGet_eq_none_of_not_mem {α : Type} {k : String} {l : List (String × α)}
    (h : k ∉ dictKeys l) : dictGet l k = none := by
  induction l with
  | nil => rfl
  | cons p rest ih =>
    rw [dictKeys_cons, List.mem_cons] at h
    push_neg at h
    rw [dictGet, if_neg (fun he => h.1 he.symm)]
    exact ih h.2

theorem exists_dictGet_of_mem {α : Type} {k : String} {l : List (String × α)}
    (h : k ∈ dictKeys l) : ∃ v, dictGet l k = some v := by
  induction l with
  | nil => simp [dictKeys] at h
  | cons p rest ih =>
    by_cases hp : p.1 = k
    · exact ⟨p.2, by rw [dictGet, if_pos hp]⟩
    · rw [dictKeys_cons, List.mem_cons] at h
      rcases h with h | h
      · exact absurd h.symm hp
      · obtain ⟨v, hv⟩ := ih h
        exact ⟨v, by rw [dictGet, if_neg hp]; exact hv⟩

/-! ## C5: rainbowCycle hue progression -/

/-- C5: On a zone of length 4 with `step` derived as the zone length
(main.py line 162), one pass of the looped `rainbowCycle` effect at
`offset = 0` assigns LED index `i` the color with hue `(i * step) % 360`,
producing exactly hues 0, 4, 8, 12 for indices 0..3: the hue advances by
a fixed increment per LED index and wraps modulo 360. -/
theorem rainbowCycleHueProgression (cs : List RGBColor) (h : cs.length = 4) :
    rainbowCycleBody cs cs.length 0 =
      [RGBColor.fromHSV 0 100 100, RGBColor.fromHSV 4 100 100,
        RGBColor.fromHSV 8 100 100, RGBColor.fromHSV 12 100 100] ∧
    ∀ i, i < 4 →
      (rainbowCycleBody cs cs.length 0)[i]? =
        some (RGBColor.fromHSV ((i * 4) % 360) 100 100) := by
  simp only [rainbowCycleBody, h]
  exact ⟨by decide, by decide⟩

/-- Witness for C5 at the concrete all-black zone of length 4. -/
theorem rainbowCycleHueProgression_witness :
    rainbowCycleBody
        [RGBColor.mk 0 0 0, RGBColor.mk 0 0 0, RGBColor.mk 0 0 0, RGBColor.mk 0 0 0] 4 0 =
      [RGBColor.fromHSV 0 100 100, RGBColor.fromHSV 4 100 100,
        RGBColor.fromHSV 8 100 100, RGBColor.fromHSV 12 100 100] ∧
    ∀ i, i < 4 →
      (rainbowCycleBody
          [RGBColor.mk 0 0 0, RGBColor.mk 0 0 0, RGBColor.mk 0 0 0, RGBColor.mk 0 0 0] 4 0)[i]? =
        some (RGBColor.fromHSV ((i * 4) % 360) 100 100) :=
  rainbowCycleHueProgression
    [RGBColor.mk 0 0 0, RGBColor.mk 0 0 0, RGBColor.mk 0 0 0, RGBColor.mk 0 0 0] rfl

/-! ## C6: CombinedLinearZone dispatch -/

/-- C6: A combined zone over two sub-zones of lengths 3 and 5, whose
buffer holds any 8-color pattern, dispatches on `show()` exactly
`colors[0:3]` to the first sub-zone and `colors[3:8]` to the second, in
original order. -/
theorem combinedShowDispatch (z1 z2 : SubZone) (cs : List RGBColor)
    (h1 : z1.leds = 3) (h2 : z2.leds = 5) (hcs : cs.length = 8) :
    combinedShow [z1, z2] cs = [cs.take 3, cs.drop 3] := by
  have hlen : (cs.drop 3).length = 5 := by simp [hcs]
  have hdrop : (cs.drop 3).take 5 = cs.drop 3 := by
    rw [← hlen, List.take_length]
  simp [combinedShow, combinedShowAux, h1, h2, hdrop]

/-- Witness for C6 at a concrete 8-color pattern. -/
theorem combinedShowDispatch_witness :
    combinedShow [⟨3, []⟩, ⟨5, []⟩]
        [RGBColor.mk 0 0 0, RGBColor.mk 1 1 1, RGBColor.mk 2 2 2, RGBColor.mk 3 3 3,
          RGBColor.mk 4 4 4, RGBColor.mk 5 5 5, RGBColor.mk 6 6 6, RGBColor.mk 7 7 7] =
      [[RGBColor.mk 0 0 0, RGBColor.mk 1 1 1, RGBColor.mk 2 2 2],
        [RGBColor.mk 3 3 3, RGBColor.mk 4 4 4, RGBColor.mk 5 5 5,
          RGBColor.mk 6 6 6, RGBColor.mk 7 7 7]] :=
  combinedShowDispatch ⟨3, []⟩ ⟨5, []⟩ _ rfl rfl rfl

/-! ## C10: stop while Idle is a no-op -/

/-- C10: `_stop_current_effect` called while the controller is Idle (no
worker thread stored, or a stored worker that has already exited) changes
nothing: same state, no observable events.  Consequently stop is
idempotent: a second stop immediately after any stop is a no-op. -/
theorem stopIdleNoop (s : CtrlState) (h : isIdle s = true) :
    stopCurrentEffect s = (s, []) ∧
    ∀ s' : CtrlState,
      stopCurrentEffect (stopCurrentEffect s').1 = ((stopCurrentEffect s').1, []) := by
  constructor
  · rcases hs : s.effectThread with _ | t
    · simp [stopCurrentEffect, hs]
    · have ht : t ∉ s.alive := by simpa [isIdle, hs] using h
      simp [stopCurrentEffect, hs, ht]
  · intro s'
    rcases hs : s'.effectThread with _ | t
    · simp [stopCurrentEffect, hs]
    · by_cases ht : t ∈ s'.alive
      · simp [stopCurrentEffect, hs, ht]
      · simp [stopCurrentEffect, hs, ht]

/-- Witness for C10 at the freshly initialized controller. -/
theorem stopIdleNoop_witness :
    stopCurrentEffect initCtrl = (initCtrl, []) ∧
    stopCurrentEffect (stopCurrentEffect initCtrl).1 = ((stopCurrentEffect initCtrl).1, []) :=
  ⟨(stopIdleNoop initCtrl rfl).1, (stopIdleNoop initCtrl rfl).2 initCtrl⟩

/-! ## C1: at most one worker -/

theorem alive_nil_of_effectThread_none {s : CtrlState} (h : CtrlInv s)
    (hs : s.effectThread = none) : s.alive = [] := by
  cases ha : s.alive with
  | nil => rfl
  | cons a rest =>
    have := h.2 a (by rw [ha]; exact List.mem_cons_self a rest)
    rw [hs] at this
    cases this

theorem alive_singleton_of_mem {s : CtrlState} (h : CtrlInv s) {t : Nat}
    (hs : s.effectThread = some t) (ht : t ∈ s.alive) : s.alive = [t] := by
  rcases h with ⟨hnd, hpt⟩
  cases ha : s.alive with
  | nil => rw [ha] at ht; cases ht
  | cons a rest =>
    have h1 : a = t := by
      have := hpt a (by rw [ha]; exact List.mem_cons_self a rest)
      rw [hs] at this
      exact (Option.some.inj this).symm
    have h2 : rest = [] := by
      cases hr : rest with
      | nil => rfl
      | cons b rest2 =>
        have hb : b = t := by
          have := hpt b (by rw [ha, hr]; simp)
          rw [hs] at this
          exact (Option.some.inj this).symm
        rw [ha, hr] at hnd
        have hne : a ∉ b :: rest2 := (List.nodup_cons.mp hnd).1
        exact absurd (by rw [h1, hb] : a = b) (fun he => hne (he ▸ List.mem_cons_self b rest2))
    rw [h1, h2]

theorem alive_nil_of_not_mem {s : CtrlState} (h : CtrlInv s) {t : Nat}
    (hs : s.effectThread = some t) (ht : t ∉ s.alive) : s.alive = [] := by
  cases ha : s.alive with
  | nil => rfl
  | cons a rest =>
    have := h.2 a (by rw [ha]; exact List.mem_cons_self a rest)
    rw [hs] at this
    have hat : a = t := (Option.some.inj this).symm
    exact absurd (by rw [ha, hat]; exact List.mem_cons_self t rest : t ∈ s.alive) ht

theorem stop_alive_nil (s : CtrlState) (h : CtrlInv s) :
    (stopCurrentEffect s).1.alive = [] := by
  rcases hs : s.effectThread with _ | t
  · simp [stopCurrentEffect, hs, alive_nil_of_effectThread_none h hs]
  · by_cases ht : t ∈ s.alive
    · simp [stopCurrentEffect, hs, ht, alive_singleton_of_mem h hs ht]
    · simp [stopCurrentEffect, hs, ht, alive_nil_of_not_mem h hs ht]

theorem stop_inv (s : CtrlState) (h : CtrlInv s) : CtrlInv (stopCurrentEffect s).1 := by
  have hn := stop_alive_nil s h
  refine ⟨by rw [hn]; exact List.nodup_nil, ?_⟩
  intro w hw
  rw [hn] at hw
  cases hw

theorem setEffect_inv (effects : List (String × FunctionMetadata)) (z : Option Nat)
    (k : String) (s : CtrlState) (h : CtrlInv s) :
    CtrlInv (setEffect effects z k s).1 := by
  unfold setEffect
  by_cases hd : s.hasDevice
  · rcases z with _ | len
    · simpa [hd] using h
    · rcases hlk : dictGet effects k with _ | fm
      · simp only [hd, if_true, hlk]
        exact ⟨h.1, h.2⟩
      · by_cases hl : fm.looped
        · simp only [hd, if_true, hlk, hl]
          have h0 : CtrlInv { s with hasDevice := true, step := some len } := ⟨h.1, h.2⟩
          have hn := stop_alive_nil { s with hasDevice := true, step := some len } h0
          refine ⟨?_, ?_⟩
          · simp [hn]
          · intro w hw
            simp only [hn] at hw
            simp only [List.nil_append, List.mem_singleton] at hw
            simp [hw]
        · simp only [hd, if_true, hlk, hl, if_false]
          exact ⟨h.1, h.2⟩
  · simpa [hd] using h

theorem applyOp_inv (effects : List (String × FunctionMetadata)) (s : CtrlState) (op : Op)
    (h : CtrlInv s) : CtrlInv (applyOp effects s op) := by
  cases op with
  | select found =>
    cases found
    · simpa [applyOp, selectDeviceByName] using h
    · exact ⟨h.1, h.2⟩
  | run z k => exact setEffect_inv effects z k s h
  | stop => exact stop_inv s h
  | exitW t =>
    exact ⟨h.1.erase t, fun w hw => h.2 w (List.mem_of_mem_erase hw)⟩

theorem foldl_inv (effects : List (String × FunctionMetadata)) (ops : List Op) :
    ∀ s : CtrlState, CtrlInv s → CtrlInv (ops.foldl (applyOp effects) s) := by
  induction ops with
  | nil => intro s h; exact h
  | cons op rest ih =>
    intro s h
    exact ih (applyOp effects s op) (applyOp_inv effects s op h)

theorem alive_length_le_one {s : CtrlState} (h : CtrlInv s) : s.alive.length ≤ 1 := by
  rcases h with ⟨hnd, hpt⟩
  cases ha : s.alive with
  | nil => simp
  | cons a rest =>
    cases hr : rest with
    | nil => simp
    | cons b rest2 =>
      exfalso
      have h1 := hpt a (by rw [ha]; exact List.mem_cons_self a rest)
      have h2 := hpt b (by rw [ha, hr]; simp)
      rw [h1] at h2
      have hab : a = b := Option.some.inj h2
      rw [ha, hr] at hnd
      exact (List.nodup_cons.mp hnd).1 (hab ▸ List.mem_cons_self b rest2)

/-- C1 (amended): For every session — any sequence of device selections,
`setEffect` calls, stops and spontaneous worker exits — at most one worker
thread is alive at any instant.  The implicit stop, however, is performed
only when the *new* request resolves to a looped effect: a `setEffect`
call that resolves to a single-shot effect while a looped worker is
running performs no stop at all (second conjunct: it leaves every
controller field except `self.step` untouched and merely runs the effect
synchronously); the at-most-one-worker bound still holds because a
single-shot run spawns no worker. -/
theorem runEffectAtMostOneWorker :
    (∀ (effects : List (String × FunctionMetadata)) (ops : List Op),
      (runOps effects ops).alive.length ≤ 1) ∧
    (∀ (effects : List (String × FunctionMetadata)) (z : Nat) (k : String)
        (s : CtrlState) (fm : FunctionMetadata),
      s.hasDevice = true → dictGet effects k = some fm → fm.looped = false →
      (setEffect effects (some z) k s).1 = { s with step := some z } ∧
      (setEffect effects (some z) k s).2.1 = [Ev.runSync k]) := by
  constructor
  · intro effects ops
    exact alive_length_le_one
      (foldl_inv effects ops initCtrl ⟨List.nodup_nil, fun w hw => absurd hw (List.not_mem_nil w)⟩)
  · intro effects z k s fm hd hlk hl
    constructor
    · simp [setEffect, hd, hlk, hl]
    · simp [setEffect, hd, hlk, hl]

/-- C1 counterexample to the claim as stated: start the looped
`core-effects.rainbowCycle` (worker 0 alive, controller Running), then
call `setEffect` for the single-shot `core-effects.rainbow`.  The second
call performs no implicit stop: its event trace is just the synchronous
run — no `sigSet`, no `joinW` — and worker 0 is still alive afterwards. -/
theorem runEffectSingleShotSkipsStop_cex :
    (setEffect demoEffects (some 4) "core-effects.rainbowCycle"
        (selectDeviceByName true initCtrl)).1.effectThread = some 0 ∧
    0 ∈ (setEffect demoEffects (some 4) "core-effects.rainbowCycle"
        (selectDeviceByName true initCtrl)).1.alive ∧
    (setEffect demoEffects (some 4) "core-effects.rainbow"
        (setEffect demoEffects (some 4) "core-effects.rainbowCycle"
          (selectDeviceByName true initCtrl)).1).2.1 = [Ev.runSync "core-effects.rainbow"] ∧
    0 ∈ (setEffect demoEffects (some 4) "core-effects.rainbow"
        (setEffect demoEffects (some 4) "core-effects.rainbowCycle"
          (selectDeviceByName true initCtrl)).1).1.alive := by
  decide

/-- Witness for C1 at a concrete session and a concrete single-shot call
while Running. -/
theorem runEffectAtMostOneWorker_witness :
    (runOps demoEffects
        [Op.select true, Op.run (some 4) "core-effects.rainbowCycle",
          Op.run (some 4) "core-effects.alternate"]).alive.length ≤ 1 ∧
    (setEffect demoEffects (some 4) "core-effects.rainbow"
        { hasDevice := true, effectThread := some 0, alive := [0], signalSet := false,
          signalId := 0, nextThreadId := 1, step := some 4 }).1 =
      { hasDevice := true, effectThread := some 0, alive := [0], signalSet := false,
        signalId := 0, nextThreadId := 1, step := some 4 } ∧
    (setEffect demoEffects (some 4) "core-effects.rainbow"
        { hasDevice := true, effectThread := some 0, alive := [0], signalSet := false,
          signalId := 0, nextThreadId := 1, step := some 4 }).2.1 =
      [Ev.runSync "core-effects.rainbow"] :=
  ⟨runEffectAtMostOneWorker.1 demoEffects
      [Op.select true, Op.run (some 4) "core-effects.rainbowCycle",
        Op.run (some 4) "core-effects.alternate"],
    (runEffectAtMostOneWorker.2 demoEffects 4 "core-effects.rainbow"
        { hasDevice := true, effectThread := some 0, alive := [0], signalSet := false,
          signalId := 0, nextThreadId := 1, step := some 4 }
        { func := "rainbow", name := "rainbow", looped := false,
          plugin_module := ["rainbowCycle", "alternate", "rainbow"] }
        rfl (by decide) rfl).1,
    (runEffectAtMostOneWorker.2 demoEffects 4 "core-effects.rainbow"
        { hasDevice := true, effectThread := some 0, alive := [0], signalSet := false,
          signalId := 0, nextThreadId := 1, step := some 4 }
        { func := "rainbow", name := "rainbow", looped := false,
          plugin_module := ["rainbowCycle", "alternate", "rainbow"] }
        rfl (by decide) rfl).2⟩

/-! ## C2: signal handling when restarting a looped effect -/

/-- C2 (amended): The controller owns a single cancellation-signal object,
the `threading.Event` created in `__init__`; no looped run receives a
newly *created* signal.  When `setEffect` starts a looped effect while a
looped worker is running, the event trace is exactly: the running worker's
signal is set and the worker joined, then that *same* signal object
(`signalId` unchanged) is cleared, and only then is the new worker spawned
bound to it; the new run therefore starts with the signal in the unset
state. -/
theorem loopedRestartSignalProtocol (effects : List (String × FunctionMetadata))
    (z : Nat) (k : String) (s : CtrlState) (fm : FunctionMetadata) (t : Nat)
    (hdev : s.hasDevice = true) (hk : dictGet effects k = some fm) (hl : fm.looped = true)
    (ht : s.effectThread = some t) (ha : t ∈ s.alive) :
    (setEffect effects (some z) k s).2.1 =
      [Ev.sigSet s.signalId, Ev.joinW t, Ev.sigClear s.signalId,
        Ev.spawn s.nextThreadId s.signalId] ∧
    (setEffect effects (some z) k s).1.signalSet = false ∧
    (setEffect effects (some z) k s).1.signalId = s.signalId := by
  simp [setEffect, hdev, hk, hl, stopCurrentEffect, ht, ha]

/-- C2 counterexample to the claim as stated: run the looped
`core-effects.rainbowCycle`, then the looped `core-effects.alternate`.
The whole-session event trace shows both workers spawned bound to the one
signal object 0 (`spawn 0 0` and `spawn 1 0`), and the only signal
creation (`sigCreate 0`, in `__init__`) happens before the first
`sigSet` — so the second worker's signal is *not* created after the first
worker's signal is observed set, and the second looped run does not
receive a freshly created cancellation signal: the code clears and reuses
the existing one. -/
theorem loopedRestartSignalReuse_cex :
    clientInitTrace
        ++ (setEffect demoEffects (some 4) "core-effects.rainbowCycle"
              (selectDeviceByName true initCtrl)).2.1
        ++ (setEffect demoEffects (some 4) "core-effects.alternate"
              (setEffect demoEffects (some 4) "core-effects.rainbowCycle"
                (selectDeviceByName true initCtrl)).1).2.1 =
      [Ev.sigCreate 0, Ev.sigClear 0, Ev.spawn 0 0, Ev.sigSet 0, Ev.joinW 0,
        Ev.sigClear 0, Ev.spawn 1 0] ∧
    Ev.sigCreate 0 ∉
      ((setEffect demoEffects (some 4) "core-effects.rainbowCycle"
          (selectDeviceByName true initCtrl)).2.1
        ++ (setEffect demoEffects (some 4) "core-effects.alternate"
              (setEffect demoEffects (some 4) "core-effects.rainbowCycle"
                (selectDeviceByName true initCtrl)).1).2.1) := by
  decide

/-- Witness for C2 at a concrete Running state. -/
theorem loopedRestartSignalProtocol_witness :
    (setEffect demoEffects (some 4) "core-effects.alternate"
        { hasDevice := true, effectThread := some 0, alive := [0], signalSet := false,
          signalId := 0, nextThreadId := 1, step := some 4 }).2.1 =
      [Ev.sigSet 0, Ev.joinW 0, Ev.sigClear 0, Ev.spawn 1 0] ∧
    (setEffect demoEffects (some 4) "core-effects.alternate"
        { hasDevice := true, effectThread := some 0, alive := [0], signalSet := false,
          signalId := 0, nextThreadId := 1, step := some 4 }).1.signalSet = false ∧
    (setEffect demoEffects (some 4) "core-effects.alternate"
        { hasDevice := true, effectThread := some 0, alive := [0], signalSet := false,
          signalId := 0, nextThreadId := 1, step := some 4 }).1.signalId = 0 :=
  loopedRestartSignalProtocol demoEffects 4 "core-effects.alternate"
    { hasDevice := true, effectThread := some 0, alive := [0], signalSet := false,
      signalId := 0, nextThreadId := 1, step := some 4 }
    { func := "alternate", name := "alternate", looped := true,
      plugin_module := ["rainbowCycle", "alternate", "rainbow"] }
    0 rfl (by decide) rfl rfl (by decide)

/-! ## C3: unknown effect keys -/

theorem dotSplit (a : List Char) : ∀ (c b d : List Char), '.' ∉ a → '.' ∉ c →
    a ++ '.' :: b = c ++ '.' :: d → a = c ∧ b = d := by
  induction a with
  | nil =>
    intro c b d _ hc h
    cases c with
    | nil =>
      rw [List.nil_append, List.nil_append] at h
      exact ⟨rfl, (List.cons.inj h).2⟩
    | cons y ys =>
      exfalso
      rw [List.nil_append, List.cons_append] at h
      have hy : y = '.' := (List.cons.inj h).1.symm
      exact hc (hy ▸ List.mem_cons_self y ys)
  | cons x xs ih =>
    intro c b d ha hc h
    cases c with
    | nil =>
      exfalso
      rw [List.cons_append, List.nil_append] at h
      have hx : x = '.' := (List.cons.inj h).1
      exact ha (hx ▸ List.mem_cons_self x xs)
    | cons y ys =>
      rw [List.cons_append, List.cons_append] at h
      obtain ⟨hxy, ht⟩ := List.cons.inj h
      have ha' : '.' ∉ xs := fun hm => ha (List.mem_cons_of_mem x hm)
      have hc' : '.' ∉ ys := fun hm => hc (List.mem_cons_of_mem y hm)
      obtain ⟨h1, h2⟩ := ih ys b d ha' hc' ht
      exact ⟨by rw [hxy, h1], h2⟩

/-- The `plugin ++ "." ++ function` key scheme of `_bundle_effects` is
injective as long as plugin names are dot-free. -/
theorem dotKey_inj {p f p' f' : String} (hp : dotFree p) (hp' : dotFree p')
    (h : p ++ "." ++ f = p' ++ "." ++ f') : p = p' ∧ f = f' := by
  have hd : p.data ++ '.' :: f.data = p'.data ++ '.' :: f'.data := by
    have hc := congrArg String.data h
    simpa [String.data_append] using hc
  obtain ⟨h1, h2⟩ := dotSplit p.data p'.data f.data f'.data hp hp' hd
  exact ⟨String.ext h1, String.ext h2⟩

theorem bundle_inner_get_none (pn key : String) (fns : List (String × FunctionMetadata)) :
    ∀ acc : List (String × FunctionMetadata),
      (∀ fr ∈ fns, pn ++ "." ++ fr.1 ≠ key) →
      dictGet (fns.foldl (fun effects fr => upsert (pn ++ "." ++ fr.1) fr.2 effects) acc) key
        = dictGet acc key := by
  induction fns with
  | nil => intro acc _; rfl
  | cons fr rest ih =>
    intro acc h
    rw [List.foldl_cons]
    rw [ih _ (fun g hg => h g (List.mem_cons_of_mem fr hg))]
    exact dictGet_upsert_ne _ _ (h fr (List.mem_cons_self fr rest))

theorem bundle_aux_get_none (key : String) (plugins : List (String × LoadedPlugin)) :
    ∀ acc : List (String × FunctionMetadata),
      (∀ pr ∈ plugins, ∀ fr ∈ pr.2.functions, pr.1 ++ "." ++ fr.1 ≠ key) →
      dictGet acc key = none →
      dictGet
        (plugins.foldl
          (fun effects pr =>
            pr.2.functions.foldl
              (fun effects fr => upsert (pr.1 ++ "." ++ fr.1) fr.2 effects) effects)
          acc) key = none := by
  induction plugins with
  | nil => intro acc _ hacc; exact hacc
  | cons pr rest ih =>
    intro acc h hacc
    rw [List.foldl_cons]
    refine ih _ (fun q hq g hg => h q (List.mem_cons_of_mem pr hq) g hg) ?_
    rw [bundle_inner_get_none pr.1 key pr.2.functions acc
      (fun g hg => h pr (List.mem_cons_self pr rest) g hg)]
    exact hacc

/-- C3: A `plugin.function` key whose plugin was never loaded, and one
whose plugin is loaded but does not contain the function, are both absent
from the bundled effects dict; `setEffect` then fails with the *same*
error kind (`KeyError` re-raised as `ValueError("Unknown effect: ...")`)
in both cases, rejects the run, and leaves the controller state — the
spec's `RunningEffect` fields `effect_thread` / `shutdown_event`, the
live-worker set and the thread counter — unchanged, with no observable
events.  (Only `self.step`, which the spec does not count as controller
state, is written before the lookup.) -/
theorem unknownEffectUniformRejection (plugins : List (String × LoadedPlugin))
    (p f : String) (hp : dotFree p)
    (hcat : ∀ pr ∈ plugins, dotFree pr.1)
    (habs : (∀ pr ∈ plugins, pr.1 ≠ p) ∨
            (∀ pr ∈ plugins, pr.1 = p → ∀ fr ∈ pr.2.functions, fr.1 ≠ f))
    (z : Nat) (s : CtrlState) (hdev : s.hasDevice = true) :
    dictGet (bundleEffects plugins) (p ++ "." ++ f) = none ∧
    (setEffect (bundleEffects plugins) (some z) (p ++ "." ++ f) s).2.2 =
      some (RunErr.unknownEffect (p ++ "." ++ f)) ∧
    (setEffect (bundleEffects plugins) (some z) (p ++ "." ++ f) s).2.1 = [] ∧
    (setEffect (bundleEffects plugins) (some z) (p ++ "." ++ f) s).1.effectThread
      = s.effectThread ∧
    (setEffect (bundleEffects plugins) (some z) (p ++ "." ++ f) s).1.alive = s.alive ∧
    (setEffect (bundleEffects plugins) (some z) (p ++ "." ++ f) s).1.signalSet
      = s.signalSet ∧
    (setEffect (bundleEffects plugins) (some z) (p ++ "." ++ f) s).1.signalId
      = s.signalId ∧
    (setEffect (bundleEffects plugins) (some z) (p ++ "." ++ f) s).1.nextThreadId
      = s.nextThreadId := by
  have hnone : dictGet (bundleEffects plugins) (p ++ "." ++ f) = none := by
    refine bundle_aux_get_none (p ++ "." ++ f) plugins [] ?_ rfl
    intro pr hpr fr hfr heq
    obtain ⟨h1, h2⟩ := dotKey_inj (hcat pr hpr) hp heq
    rcases habs with habs | habs
    · exact habs pr hpr h1
    · exact habs pr hpr h1 fr hfr h2
  refine ⟨hnone, ?_, ?_, ?_, ?_, ?_, ?_, ?_⟩ <;>
    simp [setEffect, hdev, hnone]

/-- Witness for C3: the shipped catalog, probed both with a plugin that
was never discovered and with a declared plugin lacking the requested
function. -/
theorem unknownEffectUniformRejection_witness :
    (dictGet (bundleEffects demoCatalog) ("ghost" ++ "." ++ "run") = none ∧
      (setEffect (bundleEffects demoCatalog) (some 4) ("ghost" ++ "." ++ "run")
          (selectDeviceByName true initCtrl)).2.2 =
        some (RunErr.unknownEffect ("ghost" ++ "." ++ "run"))) ∧
    (dictGet (bundleEffects demoCatalog) ("core-effects" ++ "." ++ "sparkle") = none ∧
      (setEffect (bundleEffects demoCatalog) (some 4) ("core-effects" ++ "." ++ "sparkle")
          (selectDeviceByName true initCtrl)).2.2 =
        some (RunErr.unknownEffect ("core-effects" ++ "." ++ "sparkle"))) :=
  ⟨⟨(unknownEffectUniformRejection demoCatalog "ghost" "run" (by decide) (by decide)
        (Or.inl (by decide)) 4 (selectDeviceByName true initCtrl) rfl).1,
      (unknownEffectUniformRejection demoCatalog "ghost" "run" (by decide) (by decide)
        (Or.inl (by decide)) 4 (selectDeviceByName true initCtrl) rfl).2.1⟩,
    ⟨(unknownEffectUniformRejection demoCatalog "core-effects" "sparkle" (by decide) (by decide)
        (Or.inr (by decide)) 4 (selectDeviceByName true initCtrl) rfl).1,
      (unknownEffectUniformRejection demoCatalog "core-effects" "sparkle" (by decide) (by decide)
        (Or.inr (by decide)) 4 (selectDeviceByName true initCtrl) rfl).2.1⟩⟩

/-! ## C4: the single-shot rainbow effect with step = zone length -/

theorem pyListSet_eq (c : RGBColor) : ∀ (cs : List RGBColor) (i : Nat),
    pyListSet cs i c = if i < cs.length then some (cs.set i c) else none := by
  intro cs
  induction cs with
  | nil => intro i; simp [pyListSet]
  | cons x xs ih =>
    intro i
    cases i with
    | zero => simp [pyListSet]
    | succ n =>
      show (pyListSet xs n c).map (x :: ·) = _
      rw [ih n]
      by_cases h : n < xs.length
      · rw [if_pos h, if_pos (by simp only [List.length_cons]; omega)]
        rfl
      · rw [if_neg h, if_neg (by simp only [List.length_cons]; omega)]
        rfl

theorem rainbowLoop_append (a : List (Nat × Nat)) :
    ∀ (b : List (Nat × Nat)) (cs : List RGBColor),
      rainbowLoop cs (a ++ b) =
        match rainbowLoop cs a with
        | .ok cs' => rainbowLoop cs' b
        | .error e => .error e := by
  induction a with
  | nil => intro b cs; rfl
  | cons pr rest ih =>
    intro b cs
    obtain ⟨i, hue⟩ := pr
    simp only [List.cons_append, rainbowLoop]
    cases pyListSet cs i (RGBColor.fromHSV hue 100 100) with
    | none => rfl
    | some cs' => exact ih b cs'

theorem foldl_set_length (pairs : List (Nat × Nat)) :
    ∀ cs : List RGBColor,
      (pairs.foldl (fun acc pr => acc.set pr.1 (RGBColor.fromHSV pr.2 100 100)) cs).length
        = cs.length := by
  induction pairs with
  | nil => intro cs; rfl
  | cons pr rest ih =>
    intro cs
    rw [List.foldl_cons, ih, List.length_set]

theorem rainbowLoop_ok (pairs : List (Nat × Nat)) :
    ∀ cs : List RGBColor, (∀ pr ∈ pairs, pr.1 < cs.length) →
      rainbowLoop cs pairs =
        .ok (pairs.foldl (fun acc pr => acc.set pr.1 (RGBColor.fromHSV pr.2 100 100)) cs) := by
  induction pairs with
  | nil => intro cs _; rfl
  | cons pr rest ih =>
    intro cs h
    obtain ⟨i, hue⟩ := pr
    have hset : pyListSet cs i (RGBColor.fromHSV hue 100 100)
        = some (cs.set i (RGBColor.fromHSV hue 100 100)) := by
      rw [pyListSet_eq, if_pos (h (i, hue) (List.mem_cons_self _ _))]
    simp only [rainbowLoop, hset, List.foldl_cons]
    exact ih _ (fun q hq => by rw [List.length_set]; exact h q (List.mem_cons_of_mem _ hq))

theorem rainbowWrites_getElem_ge (step : Nat) :
    ∀ (M : Nat) (cs : List RGBColor) (j : Nat), M ≤ j →
      (((List.range M).map (fun i => (i, i * step))).foldl
          (fun acc pr => acc.set pr.1 (RGBColor.fromHSV pr.2 100 100)) cs)[j]? = cs[j]? := by
  intro M
  induction M with
  | zero => intro cs j _; rfl
  | succ M ih =>
    intro cs j hj
    have hr : List.range (M + 1) = List.range M ++ [M] := by
      simpa using List.range_succ (n := M)
    rw [hr, List.map_append, List.foldl_append]
    simp only [List.map_cons, List.map_nil, List.foldl_cons, List.foldl_nil]
    rw [List.getElem?_set_ne (by omega : M ≠ j)]
    exact ih cs j (by omega)

theorem rainbowWrites_getElem_lt (step : Nat) :
    ∀ (M : Nat) (cs : List RGBColor) (j : Nat), j < M → M ≤ cs.length →
      (((List.range M).map (fun i => (i, i * step))).foldl
          (fun acc pr => acc.set pr.1 (RGBColor.fromHSV pr.2 100 100)) cs)[j]? =
        some (RGBColor.fromHSV (j * step) 100 100) := by
  intro M
  induction M with
  | zero => intro cs j hj _; exact absurd hj (Nat.not_lt_zero j)
  | succ M ih =>
    intro cs j hj hlen
    have hr : List.range (M + 1) = List.range M ++ [M] := by
      simpa using List.range_succ (n := M)
    rw [hr, List.map_append, List.foldl_append]
    simp only [List.map_cons, List.map_nil, List.foldl_cons, List.foldl_nil]
    by_cases hjM : j = M
    · subst hjM
      have hlt : j <
          (((List.range j).map (fun i => (i, i * step))).foldl
            (fun acc pr => acc.set pr.1 (RGBColor.fromHSV pr.2 100 100)) cs).length := by
        rw [foldl_set_length]
        omega
      rw [List.getElem?_set_self', List.getElem?_eq_getElem hlt]
      rfl
    · rw [List.getElem?_set_ne (fun he => hjM he.symm)]
      exact ih cs j (by omega) (by omega)

/-- C4 (amended): With `step` passed as the zone's LED count `N`
(main.py line 162), the single-shot `rainbow` effect writes
`RGBColor.fromHSV(i * step, 100, 100)` at index `i` for
`i = 0 .. ceil(360 / step) - 1` and then calls `show()`.  For every zone
with `1 ≤ N` and `N * N < 360` (i.e. `1 ≤ N ≤ 18`) the loop indexes past
the end of the `N`-element buffer and dies with an IndexError; for
`N ≥ 19` it succeeds, calls `show()`, and leaves every LED at index
`≥ ceil(360 / N)` unchanged.  (At `N = 0` — excluded here — the code
raises `ValueError` from `range(0, 360, 0)` instead, see the
counterexample.) -/
theorem rainbowStepLenBehavior (cs : List RGBColor) (N : Nat) (hN : cs.length = N) :
    (1 ≤ N → N * N < 360 → rainbow cs N = .error PyErr.indexError) ∧
    (19 ≤ N → ∃ out : List RGBColor,
      rainbow cs N = .ok (out, true) ∧ out.length = N ∧
      (∀ i, i < (360 + N - 1) / N → out[i]? = some (RGBColor.fromHSV (i * N) 100 100)) ∧
      (∀ i, (360 + N - 1) / N ≤ i → out[i]? = cs[i]?)) := by
  constructor
  · intro h1 h360
    have hN0 : ¬ N = 0 := by omega
    have hexp : (N + 1) * N = N * N + N := by ring
    have hMN : N < (360 + N - 1) / N := by
      have hle : N + 1 ≤ (360 + N - 1) / N := by
        rw [Nat.le_div_iff_mul_le (by omega : 0 < N), hexp]
        omega
      omega
    obtain ⟨K, hK⟩ : ∃ K, (360 + N - 1) / N - N = K + 1 :=
      ⟨(360 + N - 1) / N - N - 1, by omega⟩
    have hpairs : rainbowPairs N =
        (List.range N).map (fun i => (i, i * N)) ++
          ((N, N * N) ::
            (List.range K).map (fun j => (N + Nat.succ j, (N + Nat.succ j) * N))) := by
      rw [rainbowPairs]
      conv_lhs => rw [show (360 + N - 1) / N = N + ((360 + N - 1) / N - N) from by omega]
      rw [List.range_add, hK, List.range_succ_eq_map]
      rw [List.map_append, List.map_map, List.map_cons, List.map_map]
      simp [Function.comp]
    have hgood : rainbowLoop cs ((List.range N).map (fun i => (i, i * N))) =
        .ok (((List.range N).map (fun i => (i, i * N))).foldl
          (fun acc pr => acc.set pr.1 (RGBColor.fromHSV pr.2 100 100)) cs) := by
      refine rainbowLoop_ok _ cs ?_
      intro pr hpr
      obtain ⟨i, hi, rfl⟩ := List.mem_map.mp hpr
      rw [hN]
      exact List.mem_range.mp hi
    have hlen1 : (((List.range N).map (fun i => (i, i * N))).foldl
        (fun acc pr => acc.set pr.1 (RGBColor.fromHSV pr.2 100 100)) cs).length = N := by
      rw [foldl_set_length, hN]
    have hbad : rainbowLoop
        (((List.range N).map (fun i => (i, i * N))).foldl
          (fun acc pr => acc.set pr.1 (RGBColor.fromHSV pr.2 100 100)) cs)
        ((N, N * N) ::
          (List.range K).map (fun j => (N + Nat.succ j, (N + Nat.succ j) * N))) =
        .error PyErr.indexError := by
      have hset : pyListSet
          (((List.range N).map (fun i => (i, i * N))).foldl
            (fun acc pr => acc.set pr.1 (RGBColor.fromHSV pr.2 100 100)) cs)
          N (RGBColor.fromHSV (N * N) 100 100) = none := by
        rw [pyListSet_eq, if_neg (by rw [hlen1]; omega)]
      simp only [rainbowLoop, hset]
    simp only [rainbow, if_neg hN0, hpairs, rainbowLoop_append, hgood, hbad]
    rfl
  · intro h19
    have hN0 : ¬ N = 0 := by omega
    have h361 : 361 ≤ N * N := Nat.mul_le_mul h19 h19
    have hexp : (N + 1) * N = N * N + N := by ring
    have hM_le : (360 + N - 1) / N ≤ N := by
      have hlt : (360 + N - 1) / N < N + 1 := by
        rw [Nat.div_lt_iff_lt_mul (by omega : 0 < N), hexp]
        omega
      omega
    have hbound : ∀ pr ∈ rainbowPairs N, pr.1 < cs.length := by
      intro pr hpr
      rw [rainbowPairs] at hpr
      obtain ⟨i, hi, rfl⟩ := List.mem_map.mp hpr
      have := List.mem_range.mp hi
      rw [hN]
      omega
    refine ⟨((List.range ((360 + N - 1) / N)).map (fun i => (i, i * N))).foldl
        (fun acc pr => acc.set pr.1 (RGBColor.fromHSV pr.2 100 100)) cs, ?_, ?_, ?_, ?_⟩
    · rw [rainbow, if_neg hN0, rainbowLoop_ok _ cs hbound]
      rfl
    · rw [foldl_set_length, hN]
    · intro i hi
      exact rainbowWrites_getElem_lt N ((360 + N - 1) / N) cs i hi (by omega)
    · intro i hi
      exact rainbowWrites_getElem_ge N ((360 + N - 1) / N) cs i hi

/-- C4 counterexample to the claim as stated: the claim quantifies over
every zone with `N * N < 360` (every `N ≤ 18`), but at `N = 0` (a zone
with no LEDs, `step = len(zone.colors) = 0`) the code raises `ValueError`
from `range(0, 360, 0)` before any buffer access — it does not index past
the end of the buffer. -/
theorem rainbowZeroStep_cex :
    rainbow [] 0 = Except.error PyErr.valueError ∧
    rainbow [] 0 ≠ Except.error PyErr.indexError := by
  decide

/-- Witness for C4: the out-of-range death at `N = 4` and the successful
full render at `N = 19`. -/
theorem rainbowStepLenBehavior_witness :
    rainbow [RGBColor.mk 0 0 0, RGBColor.mk 0 0 0, RGBColor.mk 0 0 0, RGBColor.mk 0 0 0] 4 =
      .error PyErr.indexError ∧
    (∃ out : List RGBColor,
      rainbow (List.replicate 19 (RGBColor.mk 0 0 0)) 19 = .ok (out, true) ∧
      out.length = 19 ∧
      (∀ i, i < (360 + 19 - 1) / 19 → out[i]? = some (RGBColor.fromHSV (i * 19) 100 100)) ∧
      (∀ i, (360 + 19 - 1) / 19 ≤ i →
        out[i]? = (List.replicate 19 (RGBColor.mk 0 0 0))[i]?)) :=
  ⟨(rainbowStepLenBehavior
        [RGBColor.mk 0 0 0, RGBColor.mk 0 0 0, RGBColor.mk 0 0 0, RGBColor.mk 0 0 0] 4
        rfl).1 (by decide) (by decide),
    (rainbowStepLenBehavior (List.replicate 19 (RGBColor.mk 0 0 0)) 19 rfl).2 (by decide)⟩

/-! ## C7: malformed manifests are contained during discovery -/

theorem discover_manifests_indep (dirs : List PluginDir) :
    ∀ (acc : List (String × PluginDir) × List (String × String))
      (es : List (String × String)),
      (dirs.foldl discoverStep (acc.1, es)).1 = (dirs.foldl discoverStep acc).1 := by
  induction dirs with
  | nil => intro acc es; rfl
  | cons d rest ih =>
    intro acc es
    rw [List.foldl_cons, List.foldl_cons]
    cases hd : d.parse with
    | ok m =>
      cases hm : m.name with
      | some n =>
        have h1 : discoverStep (acc.1, es) d = (upsert n d acc.1, es) := by
          simp [discoverStep, hd, hm]
        have h2 : (discoverStep acc d).1 = upsert n d acc.1 := by
          simp [discoverStep, hd, hm]
        rw [h1, ← h2]
        exact ih (discoverStep acc d) es
      | none =>
        have h1 : discoverStep (acc.1, es) d = (acc.1, es) := by
          simp [discoverStep, hd, hm]
        have h2 : (discoverStep acc d).1 = acc.1 := by
          simp [discoverStep, hd, hm]
        rw [h1, ← h2]
        exact ih (discoverStep acc d) es
    | error e =>
      have h1 : discoverStep (acc.1, es) d = (acc.1, upsert d.path e es) := by
        simp [discoverStep, hd]
      have h2 : (discoverStep acc d).1 = acc.1 := by
        simp [discoverStep, hd]
      rw [h1, ← h2]
      exact ih (discoverStep acc d) (upsert d.path e es)

theorem discover_errors_keys_mono (dirs : List PluginDir) :
    ∀ (acc : List (String × PluginDir) × List (String × String)) (k : String),
      k ∈ dictKeys acc.2 → k ∈ dictKeys (dirs.foldl discoverStep acc).2 := by
  induction dirs with
  | nil => intro acc k hk; exact hk
  | cons d rest ih =>
    intro acc k hk
    rw [List.foldl_cons]
    refine ih _ k ?_
    cases hd : d.parse with
    | ok m =>
      cases hm : m.name with
      | some n => simpa [discoverStep, hd, hm] using hk
      | none => simpa [discoverStep, hd, hm] using hk
    | error e =>
      simp only [discoverStep, hd]
      exact (mem_dictKeys_upsert e acc.2).mpr (Or.inr hk)

/-- C7: A malformed manifest.json is recorded as a discovery error keyed
by its path, excluded from the `_manifests` map, and does not stop
discovery: the manifest map of any scan is exactly that of the same scan
with the malformed directory removed, wherever it sits.  For two plugin
directories — one malformed, one valid and loadable — in either discovery
order, the resulting catalog holds exactly the valid plugin and the
malformed path appears only in the error report. -/
theorem discoveryMalformedContained (d1 d2 : PluginDir) (e : String) (m : Manifest)
    (n : String) (pipOk : String → Bool) (p : LoadedPlugin) (w : List String)
    (hd1 : d1.parse = .error e) (hd2 : d2.parse = .ok m) (hname : m.name = some n)
    (hload : loadPlugin pipOk d2 = .ok (p, w)) :
    (∀ pre post : List PluginDir,
      (discoverPlugins (pre ++ d1 :: post)).1 = (discoverPlugins (pre ++ post)).1) ∧
    (∀ pre post : List PluginDir,
      d1.path ∈ dictKeys (discoverPlugins (pre ++ d1 :: post)).2) ∧
    pluginManagerInit pipOk [d1, d2] =
      { manifests := [(n, d2)], loaded := [(n, p)], loadErrors := [(d1.path, e)] } ∧
    pluginManagerInit pipOk [d2, d1] =
      { manifests := [(n, d2)], loaded := [(n, p)], loadErrors := [(d1.path, e)] } := by
  refine ⟨?_, ?_, ?_, ?_⟩
  · intro pre post
    show ((pre ++ d1 :: post).foldl discoverStep ([], [])).1
      = ((pre ++ post).foldl discoverStep ([], [])).1
    rw [List.foldl_append, List.foldl_append, List.foldl_cons]
    have hstep : discoverStep (pre.foldl discoverStep ([], [])) d1 =
        ((pre.foldl discoverStep ([], [])).1,
          upsert d1.path e (pre.foldl discoverStep ([], [])).2) := by
      simp [discoverStep, hd1]
    rw [hstep]
    exact discover_manifests_indep post (pre.foldl discoverStep ([], [])) _
  · intro pre post
    show d1.path ∈ dictKeys ((pre ++ d1 :: post).foldl discoverStep ([], [])).2
    rw [List.foldl_append, List.foldl_cons]
    refine discover_errors_keys_mono post _ d1.path ?_
    have hstep : discoverStep (pre.foldl discoverStep ([], [])) d1 =
        ((pre.foldl discoverStep ([], [])).1,
          upsert d1.path e (pre.foldl discoverStep ([], [])).2) := by
      simp [discoverStep, hd1]
    rw [hstep]
    exact (mem_dictKeys_upsert e _).mpr (Or.inl rfl)
  · simp [pluginManagerInit, discoverPlugins, loadAll, discoverStep, loadStep,
      hd1, hd2, hname, hload, upsert]
  · simp [pluginManagerInit, discoverPlugins, loadAll, discoverStep, loadStep,
      hd1, hd2, hname, hload, upsert]

/-- Witness for C7: a broken directory scanned before a valid one; the
catalog ends up holding exactly the valid plugin and the error report
exactly the malformed path. -/
theorem discoveryMalformedContained_witness :
    pluginManagerInit (fun _ => true) [brokenDir, validDir] =
      { manifests := [("core-effects", validDir)],
        loaded :=
          [("core-effects",
              { name := some "core-effects", version := "1.0.0", description := "",
                author := "unknown",
                functions :=
                  [("rainbowCycle",
                      { func := "rainbowCycle", name := "rainbowCycle", looped := true,
                        plugin_module := ["rainbowCycle", "alternate", "rainbow"] })],
                manifest := demoManifest, module := ["rainbowCycle", "alternate", "rainbow"],
                status := LoadStatus.success, error := none })],
        loadErrors := [("plugins/broken/manifest.json", "Expecting value: line 1 column 1")] } :=
  (discoveryMalformedContained brokenDir validDir "Expecting value: line 1 column 1"
      demoManifest "core-effects" (fun _ => true)
      { name := some "core-effects", version := "1.0.0", description := "",
        author := "unknown",
        functions :=
          [("rainbowCycle",
              { func := "rainbowCycle", name := "rainbowCycle", looped := true,
                plugin_module := ["rainbowCycle", "alternate", "rainbow"] })],
        manifest := demoManifest, module := ["rainbowCycle", "alternate", "rainbow"],
        status := LoadStatus.success, error := none }
      [] rfl rfl rfl rfl).2.2.1

/-! ## C8: dependency-install failure is contained per plugin -/

theorem installDependencies_error_of_fail (pipOk : String → Bool) :
    ∀ deps : List (String × String),
      (∃ dep ∈ deps, pipOk (dep.1 ++ dep.2) = false) →
      ∃ msg, installDependencies pipOk deps = .error msg := by
  intro deps
  induction deps with
  | nil => rintro ⟨d, hd, _⟩; cases hd
  | cons q rest ih =>
    rintro ⟨d, hd, hdf⟩
    obtain ⟨pkg, ver⟩ := q
    by_cases hq : pipOk (pkg ++ ver) = true
    · rcases List.mem_cons.mp hd with rfl | hd'
      · rw [hq] at hdf; cases hdf
      · obtain ⟨msg, hmsg⟩ := ih ⟨d, hd', hdf⟩
        refine ⟨msg, ?_⟩
        rw [installDependencies, if_pos hq]
        exact hmsg
    · exact ⟨"Failed to install " ++ pkg ++ ver, by rw [installDependencies, if_neg hq]⟩

theorem loadPlugin_error_of_depFail (pipOk : String → Bool) (d : PluginDir) (m : Manifest)
    (dep : String × String) (hparse : d.parse = .ok m) (hdep : dep ∈ m.dependencies)
    (hfail : pipOk (dep.1 ++ dep.2) = false) :
    ∃ msg, loadPlugin pipOk d = .error msg := by
  obtain ⟨msg, hmsg⟩ := installDependencies_error_of_fail pipOk m.dependencies
    ⟨dep, hdep, hfail⟩
  have hne : m.dependencies.isEmpty = false := by
    cases hd : m.dependencies with
    | nil => rw [hd] at hdep; cases hdep
    | cons q rest => rfl
  refine ⟨msg, ?_⟩
  simp only [loadPlugin, hparse, hne, Bool.false_eq_true, if_false, hmsg]

theorem loadAll_foldl_untouched (pipOk : String → Bool) (ms : List (String × PluginDir)) :
    ∀ (acc : List (String × LoadedPlugin) × List (String × String)) (n : String),
      n ∉ dictKeys ms →
      dictGet (ms.foldl (loadStep pipOk) acc).1 n = dictGet acc.1 n := by
  induction ms with
  | nil => intro acc n _; rfl
  | cons entry rest ih =>
    intro acc n hn
    rw [dictKeys_cons, List.mem_cons] at hn
    push_neg at hn
    rw [List.foldl_cons, ih _ n hn.2]
    cases hl : loadPlugin pipOk entry.2 with
    | ok pw =>
      obtain ⟨p, w2⟩ := pw
      simp only [loadStep, hl]
      exact dictGet_upsert_ne _ _ (fun he => hn.1 he.symm)
    | error er => simp only [loadStep, hl]

theorem loadAll_errors_keys_mono (pipOk : String → Bool) (ms : List (String × PluginDir)) :
    ∀ (acc : List (String × LoadedPlugin) × List (String × String)) (k : String),
      k ∈ dictKeys acc.2 → k ∈ dictKeys (ms.foldl (loadStep pipOk) acc).2 := by
  induction ms with
  | nil => intro acc k hk; exact hk
  | cons entry rest ih =>
    intro acc k hk
    rw [List.foldl_cons]
    refine ih _ k ?_
    cases hl : loadPlugin pipOk entry.2 with
    | ok pw =>
      obtain ⟨p, w2⟩ := pw
      simpa [loadStep, hl] using hk
    | error er =>
      simp only [loadStep, hl]
      exact (mem_dictKeys_upsert er acc.2).mpr (Or.inr hk)

theorem loadAll_get (pipOk : String → Bool) (ms : List (String × PluginDir)) :
    ∀ (acc : List (String × LoadedPlugin) × List (String × String)) (n : String)
      (d : PluginDir),
      (dictKeys ms).Nodup → (n, d) ∈ ms → n ∉ dictKeys acc.1 →
      dictGet (ms.foldl (loadStep pipOk) acc).1 n =
        match loadPlugin pipOk d with
        | .ok (p, _) => some p
        | .error _ => none := by
  induction ms with
  | nil => intro acc n d _ hmem _; cases hmem
  | cons entry rest ih =>
    intro acc n d hnd hmem hacc
    rw [dictKeys_cons] at hnd
    have hnd1 : entry.1 ∉ dictKeys rest := (List.nodup_cons.mp hnd).1
    have hnd2 : (dictKeys rest).Nodup := (List.nodup_cons.mp hnd).2
    rcases List.mem_cons.mp hmem with heq | hmem'
    · rw [List.foldl_cons]
      have hkey : n ∉ dictKeys rest := by
        have : entry.1 = n := by rw [← heq]
        rw [← this]
        exact hnd1
      rw [loadAll_foldl_untouched pipOk rest _ n hkey]
      cases hl : loadPlugin pipOk d with
      | ok pw =>
        obtain ⟨p, w2⟩ := pw
        have hstep : loadStep pipOk acc entry = (upsert n p acc.1, acc.2) := by
          rw [← heq]
          simp only [loadStep, hl]
        rw [hstep]
        exact dictGet_upsert_self n p acc.1
      | error er =>
        have hstep : loadStep pipOk acc entry = (acc.1, upsert n er acc.2) := by
          rw [← heq]
          simp only [loadStep, hl]
        rw [hstep]
        exact dictGet_eq_none_of_not_mem hacc
    · have hnmem : n ∈ dictKeys rest := by
        have : n = (n, d).1 := rfl
        rw [this]
        exact List.mem_map_of_mem Prod.fst hmem'
      have hne : entry.1 ≠ n := fun he => hnd1 (he ▸ hnmem)
      rw [List.foldl_cons]
      refine ih _ n d hnd2 hmem' ?_
      cases hl : loadPlugin pipOk entry.2 with
      | ok pw =>
        obtain ⟨p, w2⟩ := pw
        simp only [loadStep, hl]
        intro hmm
        rcases (mem_dictKeys_upsert p acc.1).mp hmm with h | h
        · exact hne h.symm
        · exact hacc h
      | error er =>
        simp only [loadStep, hl]
        exact hacc

/-- C8: If a plugin's manifest declares a dependency whose pip install
fails, that plugin's load aborts: it never enters `_loaded` and an error
is recorded against its name; and every *other* discovered plugin's entry
in the catalog is exactly what its own standalone load produces — one
plugin's dependency failure never prevents loading the rest. -/
theorem dependencyFailureContained (pipOk : String → Bool)
    (ms : List (String × PluginDir)) (es0 : List (String × String))
    (n : String) (d : PluginDir) (m : Manifest) (dep : String × String)
    (hnd : (dictKeys ms).Nodup) (hmem : (n, d) ∈ ms)
    (hparse : d.parse = .ok m) (hdep : dep ∈ m.dependencies)
    (hfail : pipOk (dep.1 ++ dep.2) = false) :
    dictGet (loadAll pipOk ms es0).1 n = none ∧
    n ∈ dictKeys (loadAll pipOk ms es0).2 ∧
    (∀ (n' : String) (d' : PluginDir), (n', d') ∈ ms → n' ≠ n →
      dictGet (loadAll pipOk ms es0).1 n' =
        match loadPlugin pipOk d' with
        | .ok (p, _) => some p
        | .error _ => none) := by
  obtain ⟨msg, hmsg⟩ := loadPlugin_error_of_depFail pipOk d m dep hparse hdep hfail
  refine ⟨?_, ?_, ?_⟩
  · rw [loadAll, loadAll_get pipOk ms ([], es0) n d hnd hmem (by simp [dictKeys]), hmsg]
  · obtain ⟨a, b, hab⟩ := List.append_of_mem hmem
    rw [loadAll, hab, List.foldl_append, List.foldl_cons]
    refine loadAll_errors_keys_mono pipOk b _ n ?_
    have hstep : loadStep pipOk (a.foldl (loadStep pipOk) ([], es0)) (n, d) =
        ((a.foldl (loadStep pipOk) ([], es0)).1,
          upsert n msg (a.foldl (loadStep pipOk) ([], es0)).2) := by
      simp only [loadStep, hmsg]
    rw [hstep]
    exact (mem_dictKeys_upsert msg _).mpr (Or.inl rfl)
  · intro n' d' hmem' hne
    rw [loadAll, loadAll_get pipOk ms ([], es0) n' d' hnd hmem' (by simp [dictKeys])]

/-- Witness for C8: plugin "needy" declares numpy>=2.0 whose install
fails; it is absent from the catalog and recorded in the errors, while
"core-effects" still loads exactly as it would alone. -/
theorem dependencyFailureContained_witness :
    dictGet (loadAll (fun s => !(s == "numpy>=2.0"))
        [("needy", needyDir), ("core-effects", validDir)] []).1 "needy" = none ∧
    "needy" ∈ dictKeys (loadAll (fun s => !(s == "numpy>=2.0"))
        [("needy", needyDir), ("core-effects", validDir)] []).2 ∧
    dictGet (loadAll (fun s => !(s == "numpy>=2.0"))
        [("needy", needyDir), ("core-effects", validDir)] []).1 "core-effects" =
      match loadPlugin (fun s => !(s == "numpy>=2.0")) validDir with
      | .ok (p, _) => some p
      | .error _ => none :=
  ⟨(dependencyFailureContained (fun s => !(s == "numpy>=2.0"))
      [("needy", needyDir), ("core-effects", validDir)] [] "needy" needyDir
      { name := some "needy", version := some "0.1", description := none, author := none,
        main := some "needy.py", functions := [], dependencies := [("numpy", ">=2.0")] }
      ("numpy", ">=2.0") (by decide) (List.mem_cons_self _ _) rfl
      (List.mem_cons_self _ _) (by decide)).1,
    (dependencyFailureContained (fun s => !(s == "numpy>=2.0"))
      [("needy", needyDir), ("core-effects", validDir)] [] "needy" needyDir
      { name := some "needy", version := some "0.1", description := none, author := none,
        main := some "needy.py", functions := [], dependencies := [("numpy", ">=2.0")] }
      ("numpy", ">=2.0") (by decide) (List.mem_cons_self _ _) rfl
      (List.mem_cons_self _ _) (by decide)).2.1,
    (dependencyFailureContained (fun s => !(s == "numpy>=2.0"))
      [("needy", needyDir), ("core-effects", validDir)] [] "needy" needyDir
      { name := some "needy", version := some "0.1", description := none, author := none,
        main := some "needy.py", functions := [], dependencies := [("numpy", ">=2.0")] }
      ("numpy", ">=2.0") (by decide) (List.mem_cons_self _ _) rfl
      (List.mem_cons_self _ _) (by decide)).2.2 "core-effects" validDir
      (List.mem_cons_of_mem _ (List.mem_cons_self _ _)) (by decide)⟩

/-! ## C9: declared-but-missing functions are dropped, the plugin loads -/

theorem installDependencies_ok (pipOk : String → Bool) :
    ∀ deps : List (String × String), (∀ dep ∈ deps, pipOk (dep.1 ++ dep.2) = true) →
      installDependencies pipOk deps = .ok () := by
  intro deps
  induction deps with
  | nil => intro _; rfl
  | cons q rest ih =>
    intro h
    obtain ⟨pkg, ver⟩ := q
    rw [installDependencies, if_pos (h (pkg, ver) (List.mem_cons_self _ _))]
    exact ih (fun dep hd => h dep (List.mem_cons_of_mem _ hd))

theorem bindFunctions_ok (exports : List String) :
    ∀ (fs : List FuncSpec) (funcs : List (String × FunctionMetadata)) (warns : List String),
      (∀ g ∈ fs, g.name ≠ none) →
      ∃ out, bindFunctions exports fs funcs warns = .ok out := by
  intro fs
  induction fs with
  | nil => intro funcs warns _; exact ⟨(funcs, warns), rfl⟩
  | cons f rest ih =>
    intro funcs warns h
    cases hf : f.name with
    | none => exact absurd hf (h f (List.mem_cons_self _ _))
    | some fn =>
      have hrest : ∀ g ∈ rest, g.name ≠ none :=
        fun g hg => h g (List.mem_cons_of_mem _ hg)
      by_cases he : fn ∈ exports
      · obtain ⟨out, hout⟩ := ih
          (upsert fn { func := fn, name := fn, looped := f.looped, plugin_module := exports }
            funcs) warns hrest
        refine ⟨out, ?_⟩
        simp only [bindFunctions, hf, if_pos he]
        exact hout
      · obtain ⟨out, hout⟩ := ih funcs (warns ++ [fn]) hrest
        refine ⟨out, ?_⟩
        simp only [bindFunctions, hf, if_neg he]
        exact hout

theorem bindFunctions_warns_mono (exports : List String) :
    ∀ (fs : List FuncSpec) (funcs : List (String × FunctionMetadata)) (warns : List String)
      (out : List (String × FunctionMetadata) × List String),
      bindFunctions exports fs funcs warns = .ok out →
      ∀ w ∈ warns, w ∈ out.2 := by
  intro fs
  induction fs with
  | nil =>
    intro funcs warns out h w hw
    rw [← Except.ok.inj h]
    exact hw
  | cons f rest ih =>
    intro funcs warns out h w hw
    cases hf : f.name with
    | none =>
      simp only [bindFunctions, hf] at h
      exact Except.noConfusion h
    | some fn =>
      simp only [bindFunctions, hf] at h
      by_cases he : fn ∈ exports
      · rw [if_pos he] at h
        exact ih _ _ _ h w hw
      · rw [if_neg he] at h
        exact ih _ _ _ h w (List.mem_append_left _ hw)

theorem bindFunctions_warn_of_missing (exports : List String) :
    ∀ (fs : List FuncSpec) (funcs : List (String × FunctionMetadata)) (warns : List String)
      (out : List (String × FunctionMetadata) × List String),
      bindFunctions exports fs funcs warns = .ok out →
      ∀ (g : FuncSpec) (fn : String), g ∈ fs → g.name = some fn → fn ∉ exports →
        fn ∈ out.2 := by
  intro fs
  induction fs with
  | nil => intro funcs warns out h g fn hg; cases hg
  | cons f rest ih =>
    intro funcs warns out h g fn hg hgn hmiss
    cases hf : f.name with
    | none =>
      simp only [bindFunctions, hf] at h
      exact Except.noConfusion h
    | some n0 =>
      simp only [bindFunctions, hf] at h
      rcases List.mem_cons.mp hg with rfl | hg'
      · have hn0 : n0 = fn := Option.some.inj (hf.symm.trans hgn)
        subst hn0
        rw [if_neg hmiss] at h
        exact bindFunctions_warns_mono exports rest _ _ _ h n0
          (List.mem_append_right _ (List.mem_singleton.mpr rfl))
      · by_cases he : n0 ∈ exports
        · rw [if_pos he] at h
          exact ih _ _ _ h g fn hg' hgn hmiss
        · rw [if_neg he] at h
          exact ih _ _ _ h g fn hg' hgn hmiss

theorem bindFunctions_get_of_not_export (exports : List String) :
    ∀ (fs : List FuncSpec) (funcs : List (String × FunctionMetadata)) (warns : List String)
      (out : List (String × FunctionMetadata) × List String),
      bindFunctions exports fs funcs warns = .ok out →
      ∀ fn : String, fn ∉ exports → dictGet out.1 fn = dictGet funcs fn := by
  intro fs
  induction fs with
  | nil =>
    intro funcs warns out h fn _
    rw [← Except.ok.inj h]
  | cons f rest ih =>
    intro funcs warns out h fn hfn
    cases hf : f.name with
    | none =>
      simp only [bindFunctions, hf] at h
      exact Except.noConfusion h
    | some n0 =>
      simp only [bindFunctions, hf] at h
      by_cases he : n0 ∈ exports
      · rw [if_pos he] at h
        rw [ih _ _ _ h fn hfn]
        exact dictGet_upsert_ne _ _ (fun heq => hfn (heq ▸ he))
      · rw [if_neg he] at h
        exact ih _ _ _ h fn hfn

theorem bindFunctions_get_preserved (exports : List String) :
    ∀ (fs : List FuncSpec) (funcs : List (String × FunctionMetadata)) (warns : List String)
      (out : List (String × FunctionMetadata) × List String),
      bindFunctions exports fs funcs warns = .ok out →
      ∀ k : String, (∀ g ∈ fs, g.name ≠ some k) → dictGet out.1 k = dictGet funcs k := by
  intro fs
  induction fs with
  | nil =>
    intro funcs warns out h k _
    rw [← Except.ok.inj h]
  | cons f rest ih =>
    intro funcs warns out h k hk
    cases hf : f.name with
    | none =>
      simp only [bindFunctions, hf] at h
      exact Except.noConfusion h
    | some n0 =>
      have hn0k : n0 ≠ k := fun he => hk f (List.mem_cons_self _ _) (he ▸ hf)
      simp only [bindFunctions, hf] at h
      by_cases he : n0 ∈ exports
      · rw [if_pos he] at h
        rw [ih _ _ _ h k (fun g hg => hk g (List.mem_cons_of_mem _ hg))]
        exact dictGet_upsert_ne _ _ hn0k
      · rw [if_neg he] at h
        exact ih _ _ _ h k (fun g hg => hk g (List.mem_cons_of_mem _ hg))

theorem bindFunctions_bound (exports : List String) :
    ∀ (fs : List FuncSpec) (funcs : List (String × FunctionMetadata)) (warns : List String)
      (out : List (String × FunctionMetadata) × List String),
      bindFunctions exports fs funcs warns = .ok out →
      (fs.filterMap FuncSpec.name).Nodup →
      ∀ (g : FuncSpec) (gn : String), g ∈ fs → g.name = some gn → gn ∈ exports →
        dictGet out.1 gn =
          some { func := gn, name := gn, looped := g.looped, plugin_module := exports } := by
  intro fs
  induction fs with
  | nil => intro funcs warns out h _ g gn hg; cases hg
  | cons f rest ih =>
    intro funcs warns out h hnd g gn hg hgn hexp
    cases hf : f.name with
    | none =>
      simp only [bindFunctions, hf] at h
      exact Except.noConfusion h
    | some n0 =>
      simp only [bindFunctions, hf] at h
      simp only [List.filterMap_cons, hf] at hnd
      have hn0mem : n0 ∉ rest.filterMap FuncSpec.name := (List.nodup_cons.mp hnd).1
      have hndrest : (rest.filterMap FuncSpec.name).Nodup := (List.nodup_cons.mp hnd).2
      rcases List.mem_cons.mp hg with rfl | hg'
      · have hn0 : n0 = gn := Option.some.inj (hf.symm.trans hgn)
        subst hn0
        rw [if_pos hexp] at h
        rw [bindFunctions_get_preserved exports rest _ _ _ h n0
          (fun g' hg' heq => hn0mem (List.mem_filterMap.mpr ⟨g', hg', heq⟩))]
        exact dictGet_upsert_self _ _ _
      · have hgnrest : gn ∈ rest.filterMap FuncSpec.name :=
          List.mem_filterMap.mpr ⟨g, hg', hgn⟩
        have hne : n0 ≠ gn := fun he => hn0mem (he ▸ hgnrest)
        by_cases he : n0 ∈ exports
        · rw [if_pos he] at h
          exact ih _ _ _ h hndrest g gn hg' hgn hexp
        · rw [if_neg he] at h
          exact ih _ _ _ h hndrest g gn hg' hgn hexp

/-- C9: A manifest that declares a function name the loaded module does
not export still loads: the missing name is only warned about (it appears
in the warning list and is absent from the bound function dict), the
plugin comes back with `status = SUCCESS`, and every declared function
the module *does* export is bound with its declared `looped` flag. -/
theorem missingFunctionOmitted (pipOk : String → Bool) (d : PluginDir) (m : Manifest)
    (exports : List String) (mf : String) (f : FuncSpec) (fn : String)
    (hparse : d.parse = .ok m)
    (hdeps : ∀ dep ∈ m.dependencies, pipOk (dep.1 ++ dep.2) = true)
    (hmain : m.main = some mf)
    (hexists : d.mainExists = true)
    (hmod : d.moduleExports = .ok exports)
    (hnamed : ∀ g ∈ m.functions, g.name ≠ none)
    (hnd : (m.functions.filterMap FuncSpec.name).Nodup)
    (hf : f ∈ m.functions) (hfn : f.name = some fn) (hmiss : fn ∉ exports) :
    ∃ pr : LoadedPlugin × List String,
      loadPlugin pipOk d = .ok pr ∧
      pr.1.status = LoadStatus.success ∧
      fn ∈ pr.2 ∧
      dictGet pr.1.functions fn = none ∧
      (∀ (g : FuncSpec) (gn : String), g ∈ m.functions → g.name = some gn → gn ∈ exports →
        dictGet pr.1.functions gn =
          some { func := gn, name := gn, looped := g.looped, plugin_module := exports }) := by
  obtain ⟨out, hbind⟩ := bindFunctions_ok exports m.functions [] [] hnamed
  have hinst : (if m.dependencies.isEmpty then Except.ok ()
      else installDependencies pipOk m.dependencies) = Except.ok () := by
    by_cases hde : m.dependencies.isEmpty
    · rw [if_pos hde]
    · rw [if_neg hde]
      exact installDependencies_ok pipOk m.dependencies hdeps
  have hload : loadPlugin pipOk d = .ok
      ({ name := m.name, version := m.version.getD "unknown",
         description := m.description.getD "", author := m.author.getD "unknown",
         functions := out.1, manifest := m, module := exports,
         status := LoadStatus.success, error := none }, out.2) := by
    obtain ⟨funcs, warns⟩ := out
    simp only [loadPlugin, hparse, hinst, hmain, hexists, if_true, hmod, hbind]
  refine ⟨_, hload, rfl, ?_, ?_, ?_⟩
  · exact bindFunctions_warn_of_missing exports m.functions [] [] out hbind f fn hf hfn hmiss
  · show dictGet out.1 fn = none
    rw [bindFunctions_get_of_not_export exports m.functions [] [] out hbind fn hmiss]
    rfl
  · intro g gn hg hgn hexp
    exact bindFunctions_bound exports m.functions [] [] out hbind hnd g gn hg hgn hexp

/-- Witness for C9: a plugin declaring `rainbowCycle` (exported) and
`sparkle` (not exported); the plugin loads, warns about `sparkle`, and
binds `rainbowCycle` with its declared looped flag. -/
theorem missingFunctionOmitted_witness :
    ∃ pr : LoadedPlugin × List String,
      loadPlugin (fun _ => true) gappyDir = .ok pr ∧
      pr.1.status = LoadStatus.success ∧
      "sparkle" ∈ pr.2 ∧
      dictGet pr.1.functions "sparkle" = none ∧
      (∀ (g : FuncSpec) (gn : String),
        g ∈ [({ name := some "rainbowCycle", looped := true } : FuncSpec),
              { name := some "sparkle", looped := false }] →
        g.name = some gn → gn ∈ ["rainbowCycle"] →
        dictGet pr.1.functions gn =
          some { func := gn, name := gn, looped := g.looped,
                 plugin_module := ["rainbowCycle"] }) :=
  missingFunctionOmitted (fun _ => true) gappyDir
    { name := some "gappy", version := none, description := none, author := none,
      main := some "gappy.py",
      functions :=
        [{ name := some "rainbowCycle", looped := true },
          { name := some "sparkle", looped := false }],
      dependencies := [] }
    ["rainbowCycle"] "gappy.py" { name := some "sparkle", looped := false } "sparkle"
    rfl (by decide) rfl rfl rfl (by decide) (by decide)
    (List.mem_cons_of_mem _ (List.mem_cons_self _ _)) rfl (by decide)
